import Mathlib

/-!
Verification of the personalized-ad service (`personalized_ad_service.py`):
a shallow embedding of its catalog data, the Gemini TTS retry loop
(`generate_audio`), the landing-page renderer
(`generate_landing_page_html`), the SMTP helper (`send_email_via_smtp`),
the interaction logger (`log_email_interaction`) and the two FastAPI
endpoints (`send_ad_email`, `ad_landing_page`), together with theorems
settling the specification's claims about them.

External collaborators (Supabase record store, SMTP server, TTS provider)
are modelled as explicit oracle arguments: each network interaction is a
value of type `Except String _` (`error msg` standing for a raised Python
exception with text `msg`), and side effects on the record store are
returned explicitly as lists of the calls made.
-/

/-! ## Catalog data (`AOE_VEHICLE_IMAGES`, `AOE_VEHICLE_DATA`, `AD_MESSAGES`) -/

/-- Value type of the `AOE_VEHICLE_DATA` dict: a category label and a
feature list. -/
structure VehicleData where
  type : String
  features : List String
deriving DecidableEq

/-- The `AOE_VEHICLE_IMAGES` dict, as an association list. -/
def AOE_VEHICLE_IMAGES : List (String × List String) :=
  [("AOE Apex",
    ["https://storage.googleapis.com/aoe-motors-images/AOE%20Apex.jpg",
     "https://storage.googleapis.com/aoe-motors-images/AOE%20Apex_back.png",
     "https://storage.googleapis.com/aoe-motors-images/AOE%20Apex_Interior.png"]),
   ("AOE Thunder",
    ["https://storage.googleapis.com/aoe-motors-images/AOE%20Thunder.jpg",
     "https://storage.googleapis.com/aoe-motors-images/AOE%20Thunder_Back.png",
     "https://storage.googleapis.com/aoe-motors-images/AOE%20Thunder_Interior.png"]),
   ("AOE Volt",
    ["https://storage.googleapis.com/aoe-motors-images/AOE%20Volt.jpg",
     "https://storage.googleapis.com/aoe-motors-images/AOE%20Volt_Back.png",
     "https://storage.googleapis.com/aoe-motors-images/AOE%20Volt_Interior.png"])]

/-- The `AOE_VEHICLE_DATA` dict, as an association list. -/
def AOE_VEHICLE_DATA : List (String × VehicleData) :=
  [("AOE Apex",
    ⟨"Luxury Sedan",
     ["Premium leather interior",
      "Advanced driver-assistance systems (ADAS)",
      "Panoramic sunroof"]⟩),
   ("AOE Volt",
    ⟨"Electric Compact",
     ["Long-range battery (500 miles)",
      "Fast charging (80% in 20 min)",
      "Regenerative braking"]⟩),
   ("AOE Thunder",
    ⟨"Performance SUV",
     ["V8 Twin-Turbo Engine",
      "Adjustable air suspension",
      "High-performance braking system"]⟩)]

/-- The `AD_MESSAGES` dict mapping vehicle type to tagline. -/
def AD_MESSAGES : List (String × String) :=
  [("Luxury Sedan", "Experience sophistication. Discover the new level of luxury."),
   ("Electric Compact", "Drive the future. Electrify your journey with groundbreaking technology."),
   ("Performance SUV", "Unleash power. Command the road with unparalleled performance.")]

/-! ## Data model -/

/-- A row of the `bookings` table as selected by the endpoints
(`email, full_name, vehicle`, keyed by `request_id`). -/
structure LeadRecord where
  email : String
  full_name : String
  vehicle : String
deriving DecidableEq

/-- The dict handed to `generate_landing_page_html` (`.get` is used on it,
so fields are optional there; the endpoint always passes both keys). -/
structure LeadRow where
  full_name : Option String
  vehicle : Option String
deriving DecidableEq

/-! ## Speech synthesizer (`generate_audio`) -/

/-- What the TTS provider does on one `requests.post` attempt. -/
inductive TTSAttempt where
  /-- `requests` raised a `RequestException`: timeout, connection error,
  non-2xx status from `raise_for_status`, or malformed JSON
  (`requests.exceptions.JSONDecodeError` is a `RequestException`). -/
  | transportError
  /-- A 2xx response with parsed JSON; `audio` is the string found at
  `candidates[0].content.parts[0].inlineData.data`, `none` when that path
  is absent. An empty string is falsy in Python, so it is kept distinct
  from a usable payload. -/
  | response (audio : Option String)
deriving DecidableEq

/-- Observable outcome of one `generate_audio` invocation: the returned
value, the number of provider calls made, and the total simulated
`time.sleep` duration. -/
structure GenOutcome where
  result : Option String
  calls : Nat
  slept : Nat
deriving DecidableEq

/-- The `for i in range(3)` retry loop of `generate_audio`.
`call i` is the provider's behaviour on attempt `i`.
A `RequestException` logs a warning, sleeps `2 ** i` and continues;
a response whose extracted `audio_data` is falsy raises `ValueError`,
which the generic `except Exception` handler turns into an immediate
`return None`; a truthy payload is returned; an exhausted loop returns
`None`. -/
def genAudioLoop (call : Nat → TTSAttempt) : Nat → Nat → Nat → Nat → GenOutcome
  | 0, _, calls, slept => ⟨none, calls, slept⟩
  | fuel + 1, i, calls, slept =>
    match call i with
    | .transportError => genAudioLoop call fuel (i + 1) (calls + 1) (slept + 2 ^ i)
    | .response none => ⟨none, calls + 1, slept⟩
    | .response (some audio_data) =>
      if audio_data = "" then ⟨none, calls + 1, slept⟩
      else ⟨some audio_data, calls + 1, slept⟩

/-- `generate_audio(name, vehicle)`: builds the spoken prompt from the
catalog and runs the 3-attempt retry loop against the provider oracle
(which may inspect the prompt). -/
def generate_audio (oracle : String → Nat → TTSAttempt) (name vehicle : String) : GenOutcome :=
  let vehicle_type := ((AOE_VEHICLE_DATA.lookup vehicle).map VehicleData.type).getD "vehicle"
  let message := (AD_MESSAGES.lookup vehicle_type).getD "your perfect vehicle."
  let text_prompt := "Say cheerfully: Hello " ++ name ++ ", we saw you were interested in the "
    ++ vehicle ++ ". " ++ message
    ++ ". Our team is ready for you to take a test drive. Please call us at (800) 555-0199 or reply to this email to schedule a new appointment."
  genAudioLoop (oracle text_prompt) 3 0 0 0

/-! ## SMTP helper (`send_email_via_smtp`) -/

/-- The four `EMAIL_*` environment values. `EMAIL_PORT` is `0` when the
variable is unset (`int(EMAIL_PORT_STR) if EMAIL_PORT_STR else 0`). -/
structure SmtpConfig where
  EMAIL_HOST : Option String
  EMAIL_PORT : Nat
  EMAIL_ADDRESS : Option String
  EMAIL_PASSWORD : Option String
deriving DecidableEq

/-- Python truthiness of an optional string. -/
def truthy : Option String → Bool
  | none => false
  | some s => !s.isEmpty

/-- `ENABLE_SMTP_SENDING = all([EMAIL_HOST, EMAIL_PORT, EMAIL_ADDRESS, EMAIL_PASSWORD])`. -/
def ENABLE_SMTP_SENDING (c : SmtpConfig) : Bool :=
  truthy c.EMAIL_HOST && (c.EMAIL_PORT != 0) && truthy c.EMAIL_ADDRESS && truthy c.EMAIL_PASSWORD

/-- `send_email_via_smtp(recipient_email, subject, body_html)`.
`transport` stands for the whole connect/login/`send_message` interaction
inside the `try` block (`error msg` = some exception was raised there; the
SSL and STARTTLS branches differ only in how that connection is opened).
Returns `(value returned, whether the transport was contacted)`. The
function never propagates an exception: the `except Exception` handler
returns `False`. -/
def send_email_via_smtp (c : SmtpConfig) (transport : Except String Unit)
    (recipient_email subject body_html : String) : Bool × Bool :=
  if ENABLE_SMTP_SENDING c = false then (false, false)
  else if c.EMAIL_PORT = 465 then
    match transport with
    | .ok _ => (true, true)
    | .error _ => (false, true)
  else if c.EMAIL_PORT = 587 then
    match transport with
    | .ok _ => (true, true)
    | .error _ => (false, true)
  else (false, false)

/-! ## Interaction logger (`log_email_interaction`) -/

/-- `log_email_interaction(request_id, event_type)`: attempts one insert
into `email_interactions`; an exception from the insert is caught and
logged, never re-raised. Returns the insert call made together with the
swallowed error text, if any. -/
def log_email_interaction (insertResult : Except String Unit) (request_id event_type : String) :
    List (String × String) × Option String :=
  ([(request_id, event_type)],
   match insertResult with
   | .ok _ => none
   | .error e => some e)

/-! ## Endpoint plumbing -/

/-- A Python exception as observed at the orchestrator boundary: either a
`fastapi.HTTPException` or any other exception, reduced to its text. -/
inductive PyExc where
  | http (status : Nat) (detail : String)
  | other (msg : String)
deriving DecidableEq

/-- Python `str(e)`: starlette's `HTTPException.__str__` renders
`"{status_code}: {detail}"`; for other exceptions the message itself. -/
def PyExc.text : PyExc → String
  | .http s d => toString s ++ ": " ++ d
  | .other m => m

/-- What the HTTP caller of `POST /send-ad-email` receives: the 200 JSON
body, or an `HTTPException`'s status and detail. -/
inductive ApiResult where
  | ok (status message : String)
  | httpError (status : Nat) (detail : String)
deriving DecidableEq

/-- The caller-visible message text of an `ApiResult`. -/
def ApiResult.detail : ApiResult → String
  | .ok _ m => m
  | .httpError _ d => d

/-- Record-store writes performed by one `send_ad_email` invocation:
the `update` calls on `bookings` and the inserts into
`email_interactions`, each as (request id, value) pairs. -/
structure StoreEffects where
  statusUpdates : List (String × String)
  interactionEvents : List (String × String)
deriving DecidableEq

/-- The collaborators of `send_ad_email`: the Supabase fetch (which may
raise, or find no row), the SMTP configuration and transport, the
`action_status` update call, and the `email_interactions` insert. -/
structure EmailEnv where
  fetch : String → Except String (Option LeadRecord)
  smtp : SmtpConfig
  transport : Except String Unit
  update : String → String → Except String Unit
  insert : Except String Unit

/-- The email body f-string of `send_ad_email` (step 4). -/
def email_body_html (customer_name vehicle email_image_url ad_page_url : String) : String :=
  "\n        <!DOCTYPE html>\n        <html>\n        <body>\n          <p>Hello "
  ++ customer_name
  ++ ",</p>\n          <p>We saw you were interested in the "
  ++ vehicle
  ++ ". Our team has a personalized message for you.</p>\n          <p>Take a look at the stunning "
  ++ vehicle
  ++ ":</p>\n          <img src=\""
  ++ email_image_url
  ++ "\" alt=\"Image of "
  ++ vehicle
  ++ "\" style=\"max-width: 100%; height: auto; border-radius: 8px;\">\n          <p>To view your personal message, click the button below:</p>\n          <a href=\""
  ++ ad_page_url
  ++ "\" style=\"display:inline-block; padding:10px 20px; color:#ffffff; background-color:#14b8a6; text-decoration:none; border-radius:8px;\">Listen to Your Ad</a>\n          <p>Sincerely,</p>\n          <p>Your AOE Motors Team</p>\n        </body>\n        </html>\n        "

/-- The `try` block of `send_ad_email`: fetch the lead, compose the email,
send it, and on success update the status and log the interaction.
Returns the normal value or the exception reaching the `except` handler,
together with the record-store calls made. -/
def send_ad_email_try (env : EmailEnv) (request_id : String) :
    Except PyExc (String × String) × StoreEffects :=
  match env.fetch request_id with
  | .error e => (.error (.other e), ⟨[], []⟩)
  | .ok none => (.error (.http 404 "Lead not found."), ⟨[], []⟩)
  | .ok (some lead_data) =>
    let email_image_url := ((AOE_VEHICLE_IMAGES.lookup lead_data.vehicle).getD
      ["https://placehold.co/600x338/1F2937/D1D5DB?text=AOE+Motors"]).headD ""
    let ad_page_url := "https://aoe-personalized-ad.onrender.com/ad?id=" ++ request_id
    let email_body := email_body_html lead_data.full_name lead_data.vehicle email_image_url ad_page_url
    let email_subject := "A special message for you about the " ++ lead_data.vehicle ++ "!"
    let email_sent := (send_email_via_smtp env.smtp env.transport lead_data.email email_subject email_body).1
    if email_sent then
      match env.update request_id "Personalized Ad Sent" with
      | .error e => (.error (.other e), ⟨[(request_id, "Personalized Ad Sent")], []⟩)
      | .ok _ =>
        let logged := log_email_interaction env.insert request_id "personalized_ad_email_sent"
        (.ok ("success", "Personalized ad email sent successfully."),
         ⟨[(request_id, "Personalized Ad Sent")], logged.1⟩)
    else
      (.error (.http 500 "Failed to send personalized ad email."), ⟨[], []⟩)

/-- `POST /send-ad-email`: the `try` block wrapped by
`except Exception as e: raise HTTPException(500, f"Internal server error: {e}")`.
Note that `fastapi.HTTPException` is itself an `Exception`, so the 404 and
the delivery-failure 500 raised inside the `try` are also re-wrapped. -/
def send_ad_email (env : EmailEnv) (request_id : String) : ApiResult × StoreEffects :=
  match send_ad_email_try env request_id with
  | (.ok (s, m), eff) => (.ok s m, eff)
  | (.error e, eff) => (.httpError 500 ("Internal server error: " ++ e.text), eff)

/-! ## Page renderer (`generate_landing_page_html`)

The f-string template is transcribed chunk by chunk, split at every
interpolation point (and, for later reference, just before the substrings
the specification singles out). -/

/-- Template from the start up to (excluding) `Hello ` in the `h2`. -/
def htmlTplHead0 : String :=
  "\n    "
  ++ "<!DOCTYPE html>"
  ++ "\n    <html>\n    <head>\n      <title>Your Personalized Ad</title>\n      <meta name=\"viewport\" content=\"width=device-width, initial-scale=1.0\">\n      <script src=\"https://cdn.tailwindcss.com\"></script>\n    </head>\n    <body class=\"min-h-screen bg-gray-900 text-white flex flex-col items-center justify-center p-4 font-sans\">\n      <div class=\"w-full max-w-4xl bg-gray-800 p-8 rounded-2xl shadow-xl border border-gray-700\">\n        <p class=\"text-center text-gray-400 mb-8\">\n          A special message for you from the AOE Motors team!\n        </p>\n        \n        <div class=\"mt-8\">\n          <h2 class=\"text-2xl sm:text-3xl font-bold text-white text-center mb-6 animate-fade-in\">\n            "

/-- Template from the start up to (and including) `Hello ` in the `h2`. -/
def htmlTplHead : String := htmlTplHead0 ++ "Hello "

/-- Template between `{ad_message}` and `{images_html}`. -/
def htmlTplMid1 : String :=
  "\n          </h2>\n          \n          <div class=\"grid grid-cols-1 sm:grid-cols-3 gap-4 mb-6\">\n            "

/-- Template between `{images_html}` and `{features_html}`. -/
def htmlTplMid2 : String :=
  "\n          </div>\n\n          <div class=\"p-6 bg-gray-700 rounded-2xl shadow-inner border border-gray-600\">\n            <div class=\"flex items-center justify-between mb-4\">\n              <h3 class=\"text-xl font-semibold\">Key Features</h3>\n              <button\n                onclick=\"document.getElementById('audio-player').play();\"\n                class=\"flex items-center gap-2 px-4 py-2 bg-teal-500 hover:bg-teal-600 text-white font-semibold rounded-full shadow-md transition-colors duration-300 transform hover:scale-105\"\n                aria-label=\"Play Personalized Ad Audio\"\n              >\n                <svg xmlns=\"http://www.w3.org/2000/svg\" class=\"h-5 w-5\" viewBox=\"0 0 24 24\" fill=\"currentColor\">\n                  <path d=\"M8 5v14l11-7z\" />\n                </svg>\n                Play Audio\n              </button>\n            </div>\n            <ul class=\"text-gray-300 text-sm list-disc list-inside space-y-2 mt-4\">\n              "

/-- Template between `{features_html}` and the audio element. -/
def htmlTplMid3 : String :=
  "\n            </ul>\n          </div>\n          "

/-- Opening of the audio element, up to the `src` value. -/
def audioOpenTag : String := "<audio id=\"audio-player\" src=\""

/-- Close of the audio element, from after the `src` value. -/
def audioCloseTag : String := "\" preload=\"auto\"></audio>"

/-- Template from after the audio element to the end. -/
def htmlTplTail : String :=
  "\n        </div>\n      </div>\n    </body>\n    "
  ++ "</html>"
  ++ "\n    "

/-- The `images_html` accumulation loop. -/
def images_html (vehicle_images : List String) (vehicle : String) : String :=
  vehicle_images.foldl
    (fun acc image_src => acc
      ++ "\n          <div class=\"rounded-2xl overflow-hidden shadow-lg border border-gray-700\">\n            <img src=\""
      ++ image_src
      ++ "\" alt=\"Image of "
      ++ vehicle
      ++ "\" class=\"w-full h-auto object-cover\" onerror=\"this.onerror=null; this.src='https://placehold.co/400x225/1F2937/D1D5DB?text=Image+Failed+to+Load';\">\n          </div>\n        ")
    ""

/-- The `features_html` accumulation loop. -/
def features_html (vehicle_features : List String) : String :=
  vehicle_features.foldl
    (fun acc feature => acc
      ++ "\n          <li class=\"flex items-start\">\n            <span class=\"text-blue-400 mr-2\">\n                <svg xmlns=\"http://www.w3.org/2000/svg\" class=\"h-4 w-4 mt-1\" viewBox=\"0 0 20 20\" fill=\"currentColor\">\n                    <path fill-rule=\"evenodd\" d=\"M10 18a8 8 0 100-16 8 8 0 000 16zm3.707-9.293a1 1 0 00-1.414-1.414L9 10.586 7.707 9.293a1 1 0 00-1.414 1.414l2 2a1 1 0 001.414 0l4-4z\" clip-rule=\"evenodd\" />\n                </svg>\n            </span>\n            <span>"
      ++ feature
      ++ "</span>\n          </li>\n        ")
    ""

/-- `generate_landing_page_html(lead_data, audio_data_base64)`: the pure
template renderer. `audio_data_base64` is falsy (absent or empty) or a
payload; every dict access uses `.get` with the source's defaults. -/
def generate_landing_page_html (lead_data : LeadRow) (audio_data_base64 : Option String) : String :=
  let vehicle := lead_data.vehicle.getD "vehicle"
  let full_name := lead_data.full_name.getD "Customer"
  let vehicle_data := AOE_VEHICLE_DATA.lookup vehicle
  let vehicle_images := (AOE_VEHICLE_IMAGES.lookup vehicle).getD []
  let vehicle_features := (vehicle_data.map VehicleData.features).getD []
  let vehicle_type := (vehicle_data.map VehicleData.type).getD ""
  let ad_message := (AD_MESSAGES.lookup vehicle_type).getD ("your perfect " ++ vehicle_type ++ ".")
  let audio_data_url :=
    match audio_data_base64 with
    | some a => if a = "" then "" else "data:audio/wav;base64," ++ a
    | none => ""
  htmlTplHead ++ full_name ++ ", " ++ ad_message
    ++ htmlTplMid1 ++ images_html vehicle_images vehicle
    ++ htmlTplMid2 ++ features_html vehicle_features
    ++ htmlTplMid3 ++ audioOpenTag ++ audio_data_url ++ audioCloseTag ++ htmlTplTail

/-! ## Landing-page endpoint (`ad_landing_page`) -/

/-- Which internal components one `ad_landing_page` invocation reached. -/
structure AdEffects where
  synthInvoked : Bool
  renderInvoked : Bool
deriving DecidableEq

/-- The collaborators of `ad_landing_page`: the Supabase fetch and the TTS
provider oracle. -/
structure AdEnv where
  fetch : String → Except String (Option LeadRecord)
  tts : String → Nat → TTSAttempt

/-- `GET /ad?id=...`: empty id → 400; fetch raising → the generic 500
HTML (the `except Exception` handler); no row → 404; otherwise synthesize
audio (failures absorbed into `none`) and render the page. -/
def ad_landing_page (env : AdEnv) (id : String) : (Nat × String) × AdEffects :=
  if id = "" then ((400, "<h1>Error: Missing lead ID.</h1>"), ⟨false, false⟩)
  else
    match env.fetch id with
    | .error _ =>
      ((500, "<h1>Internal Server Error</h1><p>Failed to generate the personalized ad. Please try again later.</p>"),
       ⟨false, false⟩)
    | .ok none => ((404, "<h1>Error: Lead not found.</h1>"), ⟨false, false⟩)
    | .ok (some lead_data) =>
      let audio_data_base64 := (generate_audio env.tts lead_data.full_name lead_data.vehicle).result
      ((200, generate_landing_page_html ⟨some lead_data.full_name, some lead_data.vehicle⟩ audio_data_base64),
       ⟨true, true⟩)

/-! ## Substring containment -/

/-- `HasSubstr s p`: `p` occurs contiguously inside `s`. -/
def HasSubstr (s p : String) : Prop :=
  ∃ pre post, s = pre ++ p ++ post

theorem HasSubstr.appendl {a p : String} (h : HasSubstr a p) (b : String) :
    HasSubstr (a ++ b) p := by
  obtain ⟨pre, post, rfl⟩ := h
  exact ⟨pre, post ++ b, by simp [String.append_assoc]⟩

theorem HasSubstr.appendr {b p : String} (h : HasSubstr b p) (a : String) :
    HasSubstr (a ++ b) p := by
  obtain ⟨pre, post, rfl⟩ := h
  exact ⟨a ++ pre, post, by simp [String.append_assoc]⟩

theorem hasSubstr_mid (a p b : String) : HasSubstr (a ++ p ++ b) p := ⟨a, b, rfl⟩

theorem hasSubstr_join (a x y b : String) : HasSubstr (a ++ x ++ y ++ b) (x ++ y) :=
  ⟨a, b, by simp [String.append_assoc]⟩

theorem hasSubstr_around_empty (x t y : String) :
    HasSubstr (x ++ t ++ "" ++ y) (t ++ y) :=
  ⟨x, "", by simp [String.append_assoc, String.append_empty]⟩

/-! ## Helper lemmas for the retry loop -/

theorem genAudioLoop_calls_le (call : Nat → TTSAttempt) :
    ∀ fuel i calls slept, (genAudioLoop call fuel i calls slept).calls ≤ calls + fuel := by
  intro fuel
  induction fuel with
  | zero =>
    intro i c s
    show c ≤ c + 0
    omega
  | succ n ih =>
    intro i c s
    simp only [genAudioLoop]
    split
    · exact le_trans (ih _ _ _) (by omega)
    · show c + 1 ≤ c + (n + 1)
      omega
    · split
      · show c + 1 ≤ c + (n + 1)
        omega
      · show c + 1 ≤ c + (n + 1)
        omega

/-! ## Baseline concrete collaborators used by witnesses -/

/-- A complete SMTP configuration (implicit-TLS port). -/
def cfg0 : SmtpConfig := ⟨some "smtp.example.com", 465, some "ads@example.com", some "hunter2"⟩

/-- The concrete lead of the specification's scenario. -/
def janeLead : LeadRecord := ⟨"jane@example.com", "Jane Doe", "AOE Volt"⟩

/-! ## Claims -/

/-- C1: the spec claims that a request id the record store does not
resolve makes `POST /send-ad-email` return 404 to the caller. The code
does raise `HTTPException(404, "Lead not found.")`, but that raise happens
inside the `try` block whose `except Exception` handler catches every
`Exception` — including `HTTPException` — and re-raises it as status 500
with detail `"Internal server error: 404: Lead not found."`. So the caller
receives 500, not 404: the explicit 404 raise is unreachable as a caller
outcome. This theorem evaluates the embedded endpoint on any unresolved
id (no store writes occur, but the status is 500). -/
theorem send_ad_email_unknown_lead_returns_500 (env : EmailEnv) (request_id : String)
    (h : env.fetch request_id = .ok none) :
    send_ad_email env request_id
      = (.httpError 500 "Internal server error: 404: Lead not found.", ⟨[], []⟩) := by
  unfold send_ad_email send_ad_email_try
  rw [h]
  rfl

theorem send_ad_email_unknown_lead_returns_500_witness :
    send_ad_email ⟨fun _ => .ok none, cfg0, .ok (), fun _ _ => .ok (), .ok ()⟩ "missing-id"
      = (.httpError 500 "Internal server error: 404: Lead not found.", ⟨[], []⟩) :=
  send_ad_email_unknown_lead_returns_500 _ _ rfl

/-- C2 counterexample: an attempt whose 2xx response carries no audio
payload is NOT treated like a transport failure. With every attempt
returning an empty payload, `generate_audio` stops after one call with no
backoff (`⟨none, 1, 0⟩`); with every attempt a transport failure it makes
3 calls and backs off 7 units (`⟨none, 3, 7⟩`). Were the claim true, the
two schedules would behave identically. -/
theorem generate_audio_empty_payload_cex :
    generate_audio (fun _ _ => .response none) "Jane Doe" "AOE Volt" = ⟨none, 1, 0⟩ ∧
    generate_audio (fun _ _ => .transportError) "Jane Doe" "AOE Volt" = ⟨none, 3, 7⟩ :=
  ⟨rfl, rfl⟩

/-- C2 amended: a response whose audio payload is missing (or an empty
string, which is falsy) raises `ValueError`, which the generic
`except Exception` handler turns into an immediate `return None`: the
retry loop terminates at that attempt with no further call and no
backoff, unlike a transport-level failure. -/
theorem generate_audio_empty_payload_terminates (o o' : String → Nat → TTSAttempt)
    (name vehicle : String)
    (h : ∀ p, o p 0 = .response none)
    (h0 : ∀ p, o' p 0 = .transportError)
    (h1 : ∀ p, o' p 1 = .response (some "")) :
    generate_audio o name vehicle = ⟨none, 1, 0⟩ ∧
    generate_audio o' name vehicle = ⟨none, 2, 1⟩ := by
  constructor <;> simp [generate_audio, genAudioLoop, h, h0, h1]

theorem generate_audio_empty_payload_terminates_witness :
    generate_audio (fun _ _ => .response none) "Jane" "AOE Apex" = ⟨none, 1, 0⟩ ∧
    generate_audio (fun _ i => if i = 0 then .transportError else .response (some ""))
      "Jane" "AOE Apex" = ⟨none, 2, 1⟩ :=
  generate_audio_empty_payload_terminates _ _ "Jane" "AOE Apex"
    (fun _ => rfl) (fun _ => rfl) (fun _ => rfl)

/-- C3 counterexample: in `send_ad_email`, the `except Exception` handler
re-raises `HTTPException(500, f"Internal server error: {e}")` — the raw
exception text IS part of the caller-visible detail. Here a record-store
exception with text `boom` surfaces verbatim in the 500 response. -/
theorem send_ad_email_detail_leak_cex :
    (send_ad_email ⟨fun _ => .error "boom", cfg0, .ok (), fun _ _ => .ok (), .ok ()⟩ "R1").1
      = .httpError 500 "Internal server error: boom" ∧
    HasSubstr ((send_ad_email ⟨fun _ => .error "boom", cfg0, .ok (), fun _ _ => .ok (), .ok ()⟩ "R1").1).detail
      "boom" :=
  ⟨rfl, ⟨"Internal server error: ", "", rfl⟩⟩

/-- C3 amended: the generic-message guarantee holds for the landing-page
operation only. An unexpected exception makes `ad_landing_page` return the
fixed generic 500 HTML body, independent of the error text; but
`send_ad_email` returns a 500 whose detail is
`"Internal server error: " ++ <raw exception text>`, so the raw internal
error text is included there. -/
theorem orchestrator_internal_failure_mapping (envA : AdEnv) (envE : EmailEnv)
    (id rid m : String)
    (hid : id ≠ "") (hA : envA.fetch id = .error m) (hE : envE.fetch rid = .error m) :
    ad_landing_page envA id
      = ((500, "<h1>Internal Server Error</h1><p>Failed to generate the personalized ad. Please try again later.</p>"),
         ⟨false, false⟩) ∧
    (send_ad_email envE rid).1 = .httpError 500 ("Internal server error: " ++ m) := by
  constructor
  · unfold ad_landing_page
    rw [if_neg hid, hA]
  · unfold send_ad_email send_ad_email_try
    rw [hE]
    rfl

theorem orchestrator_internal_failure_mapping_witness :
    ad_landing_page ⟨fun _ => .error "boom", fun _ _ => .transportError⟩ "R1"
      = ((500, "<h1>Internal Server Error</h1><p>Failed to generate the personalized ad. Please try again later.</p>"),
         ⟨false, false⟩) ∧
    (send_ad_email ⟨fun _ => .error "boom", cfg0, .ok (), fun _ _ => .ok (), .ok ()⟩ "R2").1
      = .httpError 500 ("Internal server error: " ++ "boom") :=
  orchestrator_internal_failure_mapping _ _ "R1" "R2" "boom" (by decide) rfl rfl

/-- C4: the synthesizer makes at most 3 provider calls; three consecutive
transport failures yield `none` after 3 calls with total backoff
`2^0 + 2^1 + 2^2 = 7` (the loop sleeps `2^i` after every failed attempt,
including the third); success on attempt 2 (index 1) returns that
attempt's payload after exactly 2 calls and 1 unit of backoff. -/
theorem generate_audio_retry_budget (o₁ o₂ : String → Nat → TTSAttempt)
    (name vehicle a : String)
    (h1 : ∀ p i, o₁ p i = .transportError)
    (h2a : ∀ p, o₂ p 0 = .transportError)
    (h2b : ∀ p, o₂ p 1 = .response (some a))
    (ha : a ≠ "") :
    (∀ o : String → Nat → TTSAttempt, (generate_audio o name vehicle).calls ≤ 3) ∧
    generate_audio o₁ name vehicle = ⟨none, 3, 7⟩ ∧
    generate_audio o₂ name vehicle = ⟨some a, 2, 1⟩ := by
  refine ⟨fun o => ?_, ?_, ?_⟩
  · simpa using genAudioLoop_calls_le _ 3 0 0 0
  · simp [generate_audio, genAudioLoop, h1]
  · simp [generate_audio, genAudioLoop, h2a, h2b, ha]

theorem generate_audio_retry_budget_witness :
    (∀ o : String → Nat → TTSAttempt, (generate_audio o "Jane Doe" "AOE Volt").calls ≤ 3) ∧
    generate_audio (fun _ _ => .transportError) "Jane Doe" "AOE Volt" = ⟨none, 3, 7⟩ ∧
    generate_audio (fun _ i => if i = 1 then .response (some "UklGRg") else .transportError)
      "Jane Doe" "AOE Volt" = ⟨some "UklGRg", 2, 1⟩ :=
  generate_audio_retry_budget _ _ "Jane Doe" "AOE Volt" "UklGRg"
    (fun _ _ => rfl) (fun _ => rfl) (fun _ => rfl) (by decide)

/-- C5: when the mail transport fails, `send_ad_email` takes the
`else` branch: no `action_status` update and no `email_interactions`
insert are performed, and the caller gets the delivery-failure 500 (whose
detail is additionally re-wrapped by the boundary handler, since the inner
`HTTPException(500, "Failed to send personalized ad email.")` is itself
caught by `except Exception`). -/
theorem send_ad_email_delivery_failure_no_writes (env : EmailEnv) (request_id : String)
    (lead : LeadRecord)
    (hf : env.fetch request_id = .ok (some lead))
    (hs : ∀ r s b, (send_email_via_smtp env.smtp env.transport r s b).1 = false) :
    send_ad_email env request_id
      = (.httpError 500 "Internal server error: 500: Failed to send personalized ad email.",
         ⟨[], []⟩) := by
  unfold send_ad_email send_ad_email_try
  rw [hf]
  simp only [hs]
  rfl

theorem send_ad_email_delivery_failure_no_writes_witness :
    send_ad_email ⟨fun _ => .ok (some janeLead), cfg0, .error "connection refused",
        fun _ _ => .ok (), .ok ()⟩ "R1"
      = (.httpError 500 "Internal server error: 500: Failed to send personalized ad email.",
         ⟨[], []⟩) :=
  send_ad_email_delivery_failure_no_writes _ _ janeLead rfl (fun _ _ _ => rfl)

/-- C6: when the mail transport succeeds, `send_ad_email` returns the
success JSON and performs exactly one `action_status` update (to the fixed
value `Personalized Ad Sent`) and exactly one `email_interactions` insert
with event type `personalized_ad_email_sent`. No hypothesis is made on the
insert's outcome: `log_email_interaction` swallows its own exceptions, so
a failing event-append leaves the reported outcome unchanged (the witness
instantiates a failing insert). -/
theorem send_ad_email_success_records_once (env : EmailEnv) (request_id : String)
    (lead : LeadRecord)
    (hf : env.fetch request_id = .ok (some lead))
    (hs : ∀ r s b, (send_email_via_smtp env.smtp env.transport r s b).1 = true)
    (hu : env.update request_id "Personalized Ad Sent" = .ok ()) :
    send_ad_email env request_id
      = (.ok "success" "Personalized ad email sent successfully.",
         ⟨[(request_id, "Personalized Ad Sent")], [(request_id, "personalized_ad_email_sent")]⟩) := by
  unfold send_ad_email send_ad_email_try log_email_interaction
  rw [hf]
  simp only [hs, hu]
  simp

theorem send_ad_email_success_records_once_witness :
    send_ad_email ⟨fun _ => .ok (some janeLead), cfg0, .ok (),
        fun _ _ => .ok (), .error "insert failed"⟩ "R1"
      = (.ok "success" "Personalized ad email sent successfully.",
         ⟨[("R1", "Personalized Ad Sent")], [("R1", "personalized_ad_email_sent")]⟩) :=
  send_ad_email_success_records_once _ _ janeLead rfl (fun _ _ _ => rfl) rfl

/-- C7: an unresolved id makes `GET /ad` return the 404 body via an early
`return`, before `generate_audio` or `generate_landing_page_html` is ever
invoked (both component flags stay `false`). -/
theorem ad_landing_page_unknown_lead_404 (env : AdEnv) (id : String)
    (hid : id ≠ "") (hf : env.fetch id = .ok none) :
    ad_landing_page env id = ((404, "<h1>Error: Lead not found.</h1>"), ⟨false, false⟩) := by
  unfold ad_landing_page
  rw [if_neg hid, hf]

theorem ad_landing_page_unknown_lead_404_witness :
    ad_landing_page ⟨fun _ => .ok none, fun _ _ => .transportError⟩ "ghost"
      = ((404, "<h1>Error: Lead not found.</h1>"), ⟨false, false⟩) :=
  ad_landing_page_unknown_lead_404 _ _ (by decide) rfl

/-- C8: `generate_landing_page_html` is a total, deterministic function of
its two arguments (in this embedding it is a pure function, so two calls
on identical inputs are literally the same value), and for every lead row
and audio argument — unknown vehicle, absent fields, absent audio included
— it yields a complete document: the output always contains
`<!DOCTYPE html>` and `</html>`. -/
theorem generate_landing_page_html_total_deterministic
    (lead_data : LeadRow) (audio_data_base64 : Option String) :
    generate_landing_page_html lead_data audio_data_base64
      = generate_landing_page_html lead_data audio_data_base64 ∧
    HasSubstr (generate_landing_page_html lead_data audio_data_base64) "<!DOCTYPE html>" ∧
    HasSubstr (generate_landing_page_html lead_data audio_data_base64) "</html>" := by
  refine ⟨rfl, ?_, ?_⟩
  · exact ((((((((((((((hasSubstr_mid "\n    " "<!DOCTYPE html>" _).appendl
      "Hello ").appendl _).appendl ", ").appendl _).appendl htmlTplMid1).appendl
      _).appendl htmlTplMid2).appendl _).appendl htmlTplMid3).appendl
      audioOpenTag).appendl _).appendl audioCloseTag).appendl htmlTplTail)
  · exact (hasSubstr_mid "\n        </div>\n      </div>\n    </body>\n    "
      "</html>" "\n    ").appendr _

/-- C9: for the lead `Jane Doe` / `AOE Volt` with synthesis absent, the
rendered document greets `Hello Jane Doe`, carries the Electric Compact
tagline, and its audio element has an empty `src` attribute. -/
theorem landing_page_jane_doe_content :
    HasSubstr (generate_landing_page_html ⟨some "Jane Doe", some "AOE Volt"⟩ none)
      "Hello Jane Doe" ∧
    HasSubstr (generate_landing_page_html ⟨some "Jane Doe", some "AOE Volt"⟩ none)
      "Drive the future. Electrify your journey with groundbreaking technology." ∧
    HasSubstr (generate_landing_page_html ⟨some "Jane Doe", some "AOE Volt"⟩ none)
      "<audio id=\"audio-player\" src=\"\" preload=\"auto\"></audio>" := by
  refine ⟨?_, ?_, ?_⟩
  · have h0 := hasSubstr_join htmlTplHead0 "Hello " "Jane Doe" ", "
    exact h0.appendl _ |>.appendl htmlTplMid1 |>.appendl _ |>.appendl htmlTplMid2
      |>.appendl _ |>.appendl htmlTplMid3 |>.appendl audioOpenTag |>.appendl _
      |>.appendl audioCloseTag |>.appendl htmlTplTail
  · have h0 := hasSubstr_mid (htmlTplHead ++ "Jane Doe" ++ ", ")
      "Drive the future. Electrify your journey with groundbreaking technology." htmlTplMid1
    exact h0.appendl _ |>.appendl htmlTplMid2 |>.appendl _ |>.appendl htmlTplMid3
      |>.appendl audioOpenTag |>.appendl _ |>.appendl audioCloseTag |>.appendl htmlTplTail
  · exact (hasSubstr_around_empty _ audioOpenTag audioCloseTag).appendl htmlTplTail

/-- C10: `send_email_via_smtp` always returns a boolean (every exception
during the send is caught and mapped to `False`). It returns `False`
without contacting the transport when the configuration is incomplete
(`ENABLE_SMTP_SENDING` false) or the port is neither 465 nor 587, returns
`False` when the transport interaction raises, and returns `True` exactly
when the configuration is complete, the port is supported and the
transport succeeds — so misconfiguration surfaces to the caller as a
`False` (delivery failure), never as an uncaught exception. -/
theorem send_email_via_smtp_characterization (c : SmtpConfig) (t : Except String Unit)
    (recipient_email subject body_html : String) :
    send_email_via_smtp c t recipient_email subject body_html
      = (ENABLE_SMTP_SENDING c && (c.EMAIL_PORT == 465 || c.EMAIL_PORT == 587)
           && (match t with | .ok _ => true | .error _ => false),
         ENABLE_SMTP_SENDING c && (c.EMAIL_PORT == 465 || c.EMAIL_PORT == 587)) := by
  unfold send_email_via_smtp
  by_cases he : ENABLE_SMTP_SENDING c = false
  · simp [he]
  · have he' : ENABLE_SMTP_SENDING c = true := by
      revert he; cases ENABLE_SMTP_SENDING c <;> simp
    by_cases h4 : c.EMAIL_PORT = 465
    · cases t <;> simp [he', h4]
    · by_cases h5 : c.EMAIL_PORT = 587
      · cases t <;> simp [he', h4, h5]
      · cases t <;> simp [he', h4, h5]
